import Mathlib

/-!
Verification development for the ncbi-mcp repository.

This file gives a shallow embedding, in Lean 4, of the request dispatcher,
the response normalizers and the process-backed NCBI Datasets adapter of the
repository, and proves properties of that embedding.

Modelling conventions:
* JSON values (Python dicts/lists/scalars) are modelled by the inductive `J`.
  Python dicts are association lists in insertion order with unique keys
  (lookup returns the first binding; assignment replaces in place).
* Python functions that can raise are modelled in `Except String`; the
  `.error` constructor models a raised exception (its string payload is the
  exception class or a diagnostic and is never inspected by the programs).
* External effects (running a subprocess, parsing JSON text, probing the
  filesystem) are oracles passed in as explicit function arguments, matching
  the spec's collaborator contracts (exit code + captured stdout/stderr, etc.).
* Machine-level caveats: Python `True == 1` style cross-type numeric equality
  is modelled as `false`; `field in rec` / `.get` on non-mapping values is
  modelled as key-absence instead of a raised `TypeError`/`AttributeError`.
  Neither divergence is reachable from the payload shapes any theorem below
  quantifies over (hypotheses restrict to mapping-shaped records there).
-/

/-- JSON values, as produced by Python's `json.loads` (numbers restricted to
integers; no floating point appears in any modelled code path). -/
inductive J where
  | null
  | bool (b : Bool)
  | num (n : Int)
  | str (s : String)
  | arr (elems : List J)
  | obj (fields : List (String × J))

mutual

def J.decEq : (a b : J) → Decidable (a = b)
  | .null, .null => isTrue rfl
  | .bool a, .bool b =>
      if h : a = b then isTrue (by rw [h]) else isFalse (fun e => h (by cases e; rfl))
  | .num a, .num b =>
      if h : a = b then isTrue (by rw [h]) else isFalse (fun e => h (by cases e; rfl))
  | .str a, .str b =>
      if h : a = b then isTrue (by rw [h]) else isFalse (fun e => h (by cases e; rfl))
  | .arr a, .arr b =>
      match J.decEqL a b with
      | isTrue h => isTrue (by rw [h])
      | isFalse h => isFalse (fun e => h (by cases e; rfl))
  | .obj a, .obj b =>
      match J.decEqO a b with
      | isTrue h => isTrue (by rw [h])
      | isFalse h => isFalse (fun e => h (by cases e; rfl))
  | .null, .bool _ => isFalse nofun
  | .null, .num _ => isFalse nofun
  | .null, .str _ => isFalse nofun
  | .null, .arr _ => isFalse nofun
  | .null, .obj _ => isFalse nofun
  | .bool _, .null => isFalse nofun
  | .bool _, .num _ => isFalse nofun
  | .bool _, .str _ => isFalse nofun
  | .bool _, .arr _ => isFalse nofun
  | .bool _, .obj _ => isFalse nofun
  | .num _, .null => isFalse nofun
  | .num _, .bool _ => isFalse nofun
  | .num _, .str _ => isFalse nofun
  | .num _, .arr _ => isFalse nofun
  | .num _, .obj _ => isFalse nofun
  | .str _, .null => isFalse nofun
  | .str _, .bool _ => isFalse nofun
  | .str _, .num _ => isFalse nofun
  | .str _, .arr _ => isFalse nofun
  | .str _, .obj _ => isFalse nofun
  | .arr _, .null => isFalse nofun
  | .arr _, .bool _ => isFalse nofun
  | .arr _, .num _ => isFalse nofun
  | .arr _, .str _ => isFalse nofun
  | .arr _, .obj _ => isFalse nofun
  | .obj _, .null => isFalse nofun
  | .obj _, .bool _ => isFalse nofun
  | .obj _, .num _ => isFalse nofun
  | .obj _, .str _ => isFalse nofun
  | .obj _, .arr _ => isFalse nofun

def J.decEqL : (a b : List J) → Decidable (a = b)
  | [], [] => isTrue rfl
  | x :: xs, y :: ys =>
      match J.decEq x y, J.decEqL xs ys with
      | isTrue h1, isTrue h2 => isTrue (by rw [h1, h2])
      | isFalse h1, _ => isFalse (fun e => h1 (by cases e; rfl))
      | _, isFalse h2 => isFalse (fun e => h2 (by cases e; rfl))
  | [], _ :: _ => isFalse nofun
  | _ :: _, [] => isFalse nofun

def J.decEqO : (a b : List (String × J)) → Decidable (a = b)
  | [], [] => isTrue rfl
  | (k1, v1) :: xs, (k2, v2) :: ys =>
      match String.decEq k1 k2, J.decEq v1 v2, J.decEqO xs ys with
      | isTrue hk, isTrue h1, isTrue h2 => isTrue (by rw [hk, h1, h2])
      | isFalse hk, _, _ => isFalse (fun e => hk (by cases e; rfl))
      | _, isFalse h1, _ => isFalse (fun e => h1 (by cases e; rfl))
      | _, _, isFalse h2 => isFalse (fun e => h2 (by cases e; rfl))
  | [], _ :: _ => isFalse nofun
  | _ :: _, [] => isFalse nofun

end

instance : DecidableEq J := J.decEq

/-- Key lookup in a JSON object (`d[k]` / `d.get(k)` on a Python dict):
first binding wins, `none` when the key is absent or the value is not an
object. -/
def J.lookup : J → String → Option J
  | .obj kvs, k => (kvs.find? (fun kv => kv.1 == k)).map (fun kv => kv.2)
  | _, _ => none

/-- Python `d.get(k, default)` on a dict. -/
def J.getD (j : J) (k : String) (d : J) : J :=
  (j.lookup k).getD d

/-- Python `k in d` on a dict. -/
def J.hasKey (j : J) (k : String) : Bool :=
  (j.lookup k).isSome

/-- Python `d[k] = v` on a dict: replaces the existing binding in place,
else appends a new binding (insertion order preserved). -/
def J.insert : J → String → J → J
  | .obj kvs, k, v =>
      if kvs.any (fun kv => kv.1 == k) then
        .obj (kvs.map (fun kv => if kv.1 == k then (k, v) else kv))
      else
        .obj (kvs ++ [(k, v)])
  | j, _, _ => j

/-- Python truthiness (`bool(x)`) on JSON values: `None`, `False`, `0`, `""`,
`[]` and `{}` are falsy, everything else truthy. -/
def truthy : J → Bool
  | .null => false
  | .bool b => b
  | .num n => n != 0
  | .str s => !s.isEmpty
  | .arr xs => !xs.isEmpty
  | .obj kvs => !kvs.isEmpty

/-- Python `str(x)` for the scalar values that reach a diagnostic message in
the modelled code; container reprs are elided (messages are diagnostic only,
the spec forbids callers to parse them). -/
def J.pystr : J → String
  | .str s => s
  | .null => "None"
  | .bool true => "True"
  | .bool false => "False"
  | .num n => toString n
  | .arr _ => "[...]"
  | .obj _ => "{...}"

/-- Python `x[0]` on a JSON value: head of a list, first character of a
string; raises (`IndexError` when empty, `KeyError` on a dict without key 0,
`TypeError` otherwise). -/
def pyIndex0 : J → Except String J
  | .arr (x :: _) => .ok x
  | .arr [] => .error "IndexError"
  | .str s =>
      match s.data with
      | c :: _ => .ok (.str (String.mk [c]))
      | [] => .error "IndexError"
  | .obj _ => .error "KeyError"
  | _ => .error "TypeError"

/-- Python `for x in v`: iterating a list yields its elements, a string its
characters, a dict its keys; other values raise `TypeError`. -/
def pyIterList : J → Except String (List J)
  | .arr xs => .ok xs
  | .str s => .ok (s.data.map (fun c => J.str (String.mk [c])))
  | .obj kvs => .ok (kvs.map (fun kv => J.str kv.1))
  | _ => .error "TypeError"

/-- Python `x in container` for the container shapes reachable in the
modelled code (list membership, dict key membership, substring test); the
remaining shapes (which raise `TypeError` in Python) are modelled as
`false` — no theorem below quantifies over them. -/
def pyMem (x : J) (container : J) : Bool :=
  match container with
  | .arr xs => xs.any (fun y => y == x)
  | .obj kvs =>
      match x with
      | .str s => kvs.any (fun kv => kv.1 == s)
      | _ => false
  | .str s =>
      match x with
      | .str t => t.isEmpty || (s.splitOn t).length > 1
      | _ => false
  | _ => false

/-!
## Request dispatcher (`ncbi-mcp.py`, class `NCBIMCP`)

The dispatcher's only collaborator is the datasets client (`self.client`),
reached from `_tools_call`; it is abstracted as a `Provider` whose methods
either return a JSON result or raise. The `self.initialized` flag set by
`_initialize` is write-only in the source (never read), so the dispatcher is
otherwise pure and is modelled as a function of the request.
-/

/-- The `self.client` collaborator of `NCBIMCP` as seen from `_tools_call`:
`search_genes` and `get_gene_info`, each returning a JSON value or raising. -/
structure Provider where
  search_genes : J → Except String J
  get_gene_info : J → Except String J

/-- Embeds `NCBIMCP._error_response` (ncbi-mcp.py lines 257-266). -/
def error_response (request_id : J) (code : Int) (message : String) : J :=
  .obj [("jsonrpc", .str "2.0"), ("id", request_id),
        ("error", .obj [("code", .num code), ("message", .str message)])]

/-- The success envelope `{"jsonrpc": "2.0", "id": ..., "result": ...}`. -/
def result_response (request_id : J) (result : J) : J :=
  .obj [("jsonrpc", .str "2.0"), ("id", request_id), ("result", result)]

/-- Embeds `NCBIMCP._initialize`: sets the write-only `initialized` flag and returns
a capabilities result (its internal `try` has no raising statement). -/
def mcp_init (request_id : J) : J :=
  result_response request_id
    (.obj [("capabilities", .obj [("tools", .bool true), ("resources", .bool true)])])

/-- The static tool list returned by `NCBIMCP._tools_list`. -/
def tools_list_value : J :=
  .arr [
    .obj [("name", .str "search_genes"),
          ("description", .str "Search for genes in NCBI databases"),
          ("parameters", .obj [
            ("type", .str "object"),
            ("properties", .obj [
              ("query", .obj [("type", .str "string"),
                              ("description", .str "Search query for genes")])]),
            ("required", .arr [.str "query"])])],
    .obj [("name", .str "get_gene_info"),
          ("description", .str "Get detailed information about a specific gene"),
          ("parameters", .obj [
            ("type", .str "object"),
            ("properties", .obj [
              ("gene_id", .obj [("type", .str "string"),
                                ("description", .str "NCBI Gene ID")])]),
            ("required", .arr [.str "gene_id"])])]]

/-- Embeds `NCBIMCP._tools_list`. -/
def mcp_tools_list (request_id : J) : J :=
  result_response request_id (.obj [("tools", tools_list_value)])

/-- Embeds `NCBIMCP._resources_list`. -/
def mcp_resources_list (request_id : J) : J :=
  result_response request_id
    (.obj [("resources", .arr [
      .obj [("name", .str "ncbi_datasets"),
            ("description", .str "NCBI Datasets API"),
            ("type", .str "api")]])])

/-- Embeds `NCBIMCP._tools_call`. `params.get(...)` on a non-dict `params` raises
`AttributeError`, caught by the method's own `except` into a -32000 envelope;
likewise for a non-dict `parameters` value reached by `tool_params.get`. -/
def mcp_tools_call (p : Provider) (request_id : J) (params : J) : J :=
  match params with
  | .obj _ =>
      let tool_name := params.getD "name" .null
      let tool_params := params.getD "parameters" (.obj [])
      if !truthy tool_name then
        error_response request_id (-32602) "Invalid params: name is required"
      else if tool_name == .str "search_genes" then
        match tool_params with
        | .obj _ =>
            match p.search_genes (tool_params.getD "query" .null) with
            | .ok r => result_response request_id r
            | .error e => error_response request_id (-32000) e
        | _ => error_response request_id (-32000) "AttributeError"
      else if tool_name == .str "get_gene_info" then
        match tool_params with
        | .obj _ =>
            match p.get_gene_info (tool_params.getD "gene_id" .null) with
            | .ok r => result_response request_id r
            | .error e => error_response request_id (-32000) e
        | _ => error_response request_id (-32000) "AttributeError"
      else
        error_response request_id (-32601) ("Tool " ++ tool_name.pystr ++ " not found")
  | _ => error_response request_id (-32000) "AttributeError"

/-- Embeds `NCBIMCP._handle_single_request` (ncbi-mcp.py lines 127-160). Python's
return type is `Optional[Dict]`; the `Option` in the result mirrors that
type (note that no branch of the source returns `None`). -/
def handle_single_request (p : Provider) (request : J) : Option J :=
  match request with
  | .obj _ =>
      if !(request.hasKey "jsonrpc") || !(request.getD "jsonrpc" .null == .str "2.0") then
        some (error_response .null (-32600) "Invalid Request: jsonrpc field missing or invalid")
      else if !(request.hasKey "method") then
        some (error_response .null (-32600) "Invalid Request: method field missing")
      else
        let request_id := request.getD "id" .null
        let method := request.getD "method" .null
        let params := request.getD "params" (.obj [])
        if method == .str "initialize" then
          some (mcp_init request_id)
        else if method == .str "tools/list" then
          some (mcp_tools_list request_id)
        else if method == .str "tools/call" then
          some (mcp_tools_call p request_id params)
        else if method == .str "resources/list" then
          some (mcp_resources_list request_id)
        else
          some (error_response request_id (-32601) ("Method " ++ method.pystr ++ " not found"))
  | _ => some (error_response .null (-32600) "Invalid Request")

/-- Embeds `NCBIMCP.handle_request` (ncbi-mcp.py lines 108-125): a list input is
handled as a batch, collecting the non-`None` per-request responses and
returning `None` when that collection is empty; anything else is handled as
a single request. -/
def handle_request (p : Provider) (request : J) : Option J :=
  match request with
  | .arr reqs =>
      let responses := reqs.filterMap (handle_single_request p)
      if responses.isEmpty then none else some (.arr responses)
  | _ => handle_single_request p request

/-- A concrete provider for closed evaluations (its behavior is irrelevant to
every theorem that uses it: none of their inputs reach a provider call). -/
def trivProvider : Provider :=
  ⟨fun _ => .ok .null, fun _ => .ok .null⟩

/-!
## Summary normalization (`normalize_summary`, ncbi-mcp.py lines 90-101;
an identical copy is at ncbi_mcp.py lines 139-150)
-/

/-- The record built for one `(uid, rec)` item of `raw["result"].items()`:
start from `{"id": uid}`, then for each requested field present in the
sub-record assign `entry[field] = rec[field]` (dict assignment, so a
requested `"id"` field present in the sub-record overwrites the identifier
binding in place). `summary_step` is one iteration of the field loop,
`summary_entry` the whole per-item loop. -/
def summary_step (rec : J) (entry : J) (f : String) : J :=
  match rec.lookup f with
  | some v => entry.insert f v
  | none => entry

def summary_entry (uid : String) (rec : J) (fields : List String) : J :=
  fields.foldl (summary_step rec) (J.obj [("id", J.str uid)])

/-- Embeds `normalize_summary(raw, fields)`: iterate the `"result"` mapping in
insertion order, skip the sentinel key `"uids"`, and build one entry per
remaining key. `raw["result"]` raises `KeyError` when absent and `.items()`
raises `AttributeError` on a non-mapping. -/
def normalize_summary (raw : J) (fields : List String) : Except String (List J) :=
  match raw.lookup "result" with
  | none => .error "KeyError"
  | some r =>
      match r with
      | .obj kvs =>
          .ok (kvs.filterMap (fun kv =>
            if kv.1 == "uids" then none
            else some (summary_entry kv.1 kv.2 fields)))
      | _ => .error "AttributeError"

/-!
## NCBI Datasets client (`ncbi_datasets/client.py`, class `NCBIDatasetsClient`)
-/

/-- The filesystem / subprocess facts `_verify_executable` consults:
`os.path.exists`, `os.access(path, os.X_OK)`, and whether
`subprocess.run([path, "--version"], check=True)` succeeds. -/
structure FS where
  pathExists : String → Bool
  canExec : String → Bool
  versionProbeOk : String → Bool

/-- Python `s.endswith(suffix)`. -/
def endswith (s suffix : String) : Bool :=
  suffix.data.isSuffixOf s.data

/-- Embeds `NCBIDatasetsClient._verify_executable` (client.py lines 38-72): the path
must exist and be executable; for a path ending in `datasets.exe` the
`--version` probe must additionally succeed (any exception from the probe
yields `False`). -/
def verify_executable (fs : FS) (path : String) : Bool :=
  if !fs.pathExists path then false
  else if !fs.canExec path then false
  else if endswith path "datasets.exe" then fs.versionProbeOk path
  else true

/-- The state a successfully constructed `NCBIDatasetsClient` carries (the
`*_dir` fields are derived data unused by the modelled calls). -/
structure Client where
  datasets_path : String
  dataformat_path : String

/-- The `provided or os.path.join(home_dir, "<name>.exe")` path resolution of
`__init__` (Python `or`, so a falsy empty-string argument also falls back to
the default). -/
def resolve_path (arg : Option String) (dflt : String) : String :=
  match arg with
  | some p => if p.isEmpty then dflt else p
  | none => dflt

/-- Embeds `NCBIDatasetsClient.__init__` (client.py lines 12-36): resolve both paths,
then verify both executables, raising `ValueError` on the first failure. -/
def client_init (fs : FS) (home_dir : String)
    (datasets_arg dataformat_arg : Option String) : Except String Client :=
  let datasets_path := resolve_path datasets_arg (home_dir ++ "/datasets.exe")
  let dataformat_path := resolve_path dataformat_arg (home_dir ++ "/dataformat.exe")
  if !verify_executable fs datasets_path then
    .error ("datasets executable not found or not accessible at " ++ datasets_path)
  else if !verify_executable fs dataformat_path then
    .error ("dataformat executable not found or not accessible at " ++ dataformat_path)
  else
    .ok ⟨datasets_path, dataformat_path⟩

/-- The placeholder gene record returned by `_parse_response` when no usable
report is present (client.py, both occurrences are identical). -/
def unknown_gene : J :=
  .obj [("name", .str "Unknown"),
        ("description", .str "No description available"),
        ("chromosome", .str "Unknown"),
        ("map_location", .str "Unknown"),
        ("type", .str "Unknown"),
        ("summary", .str "No summary available")]

/-- The `chromosome` extraction of `_extract_gene_info`:
`gene_data.get('chromosomes', ['Unknown'])[0] if gene_data.get('chromosomes')
else 'Unknown'` (the indexing runs only under a truthiness guard, so the
`['Unknown']` default is dead; indexing a truthy non-sequence raises). -/
def gene_chromosome (gene_data : J) : Except String J :=
  if truthy (gene_data.getD "chromosomes" .null) then
    pyIndex0 (gene_data.getD "chromosomes" (.arr [.str "Unknown"]))
  else
    .ok (.str "Unknown")

/-- The inner `for location in annotation['genomic_locations']` loop:
Python breaks at the first location whose `sequence_name` is truthy and
returns that value (`none` when no location qualifies). -/
def first_sequence_name (locs : List J) : Option J :=
  (locs.find? (fun location => truthy (location.getD "sequence_name" .null))).map
    (fun location => location.getD "sequence_name" .null)

/-- The outer `for annotation ... break` loop of the `map_location`
extraction: scan annotations in order; an annotation with a truthy
`genomic_locations` contributes the first truthy `sequence_name` among its
locations, and the outer loop stops once `map_location != 'Unknown'` — so a
found value equal to the string `"Unknown"` does NOT stop the scan. -/
def scan_annotations : List J → Except String J
  | [] => .ok (.str "Unknown")
  | ann :: rest => do
      if truthy (ann.getD "genomic_locations" .null) then
        let locs ← pyIterList (ann.getD "genomic_locations" .null)
        match first_sequence_name locs with
        | some v => if v ≠ .str "Unknown" then .ok v else scan_annotations rest
        | none => scan_annotations rest
      else
        scan_annotations rest

/-- The `map_location` extraction of `_extract_gene_info` (guarded by the
truthiness of `gene_data.get('annotations')`). -/
def gene_map_location (gene_data : J) : Except String J :=
  if truthy (gene_data.getD "annotations" .null) then do
    let anns ← pyIterList (gene_data.getD "annotations" .null)
    scan_annotations anns
  else
    .ok (.str "Unknown")

/-- The `summary` extraction of `_extract_gene_info`: keep the
`'description'` value of every dict items of `gene_data['summary']`, and join
them with spaces when any were found (`' '.join` raises `TypeError` on a
non-string item). -/
def gene_summary (gene_data : J) : Except String J :=
  if truthy (gene_data.getD "summary" .null) then do
    let items ← pyIterList (gene_data.getD "summary" .null)
    let summary_items := items.filterMap (fun item =>
      match item with
      | .obj _ => item.lookup "description"
      | _ => none)
    if summary_items.isEmpty then
      .ok (.str "No summary available")
    else do
      let strs ← summary_items.mapM (fun v =>
        match v with
        | .str s => Except.ok s
        | _ => Except.error "TypeError")
      .ok (.str (String.intercalate " " strs))
  else
    .ok (.str "No summary available")

/-- Embeds `NCBIDatasetsClient._extract_gene_info` (client.py lines 167-205). -/
def extract_gene_info (gene_data : J) : Except String J := do
  let chromosome ← gene_chromosome gene_data
  let map_location ← gene_map_location gene_data
  let summary ← gene_summary gene_data
  .ok (.obj [
    ("name", gene_data.getD "symbol" (.str "Unknown")),
    ("description", gene_data.getD "description" (.str "No description available")),
    ("chromosome", chromosome),
    ("map_location", map_location),
    ("type", gene_data.getD "type" (.str "Unknown")),
    ("summary", summary)])

/-- The per-report test of the first tie-break loop: the report has a
`'gene'` key and `gene_data.get('symbol') == query`. -/
def exact_match_pred (query : J) (report : J) : Bool :=
  report.hasKey "gene" && ((report.getD "gene" .null).getD "symbol" .null == query)

/-- The per-report test of the second tie-break loop: the report has a
`'gene'` key and `query in gene_data.get('synonyms', [])`. -/
def synonym_match_pred (query : J) (report : J) : Bool :=
  report.hasKey "gene" && pyMem query ((report.getD "gene" .null).getD "synonyms" (.arr []))

/-- The three-phase tie-break of the `'gene'` branch of `_parse_response`,
run after the query string has been extracted: (a) first report whose gene's
`symbol` equals the query; (b) else first report whose gene's `synonyms`
contain the query; (c) else the first report's gene if truthy, else the
placeholder. Reports without a `'gene'` key are skipped by (a) and (b). -/
def gene_tiebreak (query : J) (rs : List J) : Except String J :=
  match rs.find? (exact_match_pred query) with
  | some report => extract_gene_info (report.getD "gene" .null)
  | none =>
      match rs.find? (synonym_match_pred query) with
      | some report => extract_gene_info (report.getD "gene" .null)
      | none =>
          match rs with
          | [] => .ok unknown_gene
          | r0 :: _ =>
              if truthy (r0.getD "gene" .null) then
                extract_gene_info (r0.getD "gene" .null)
              else
                .ok unknown_gene

/-- Embeds `NCBIDatasetsClient._parse_response` (client.py lines 102-165): non-dict
responses pass through; an `{'status': 'error'}` response raises
`ValueError`; the `'genome'` branch unwraps `reports`; the `'gene'` branch
extracts the query as `response['reports'][0].get('query', [''])[0]` and
runs the tie-break, returning the placeholder outright when `reports` is
absent or falsy. -/
def parse_response (response : J) (data_type : String) : Except String J :=
  match response with
  | .obj _ =>
      if response.getD "status" .null == .str "error" then
        .error ("NCBI Datasets API error: " ++
          ((response.getD "error" (.obj [])).getD "message" (.str "Unknown error")).pystr)
      else if data_type == "genome" then
        if response.hasKey "reports" then .ok (response.getD "reports" .null)
        else .ok response
      else if data_type == "gene" then
        if !truthy (response.getD "reports" .null) then
          .ok unknown_gene
        else do
          let r0 ← pyIndex0 (response.getD "reports" .null)
          let query ← pyIndex0 (r0.getD "query" (.arr [.str ""]))
          let rs ← pyIterList (response.getD "reports" .null)
          gene_tiebreak query rs
      else
        .ok response
  | _ => .ok response

/-- One subprocess invocation as the spec's process-execution collaborator
sees it: exit code plus captured stdout/stderr. -/
structure ProcResult where
  exitCode : Int
  stdout : String
  stderr : String

/-- The external world a process-backed call runs against: a process runner
(argument list to outcome) and `json.loads` on captured stdout (`none` models
a `json.JSONDecodeError`; JSON text parsing itself is outside the embedded
program). -/
structure ProcWorld where
  run : List String → ProcResult
  jsonLoads : String → Option J

/-- The diagnostic `str(e)` of a `CalledProcessError` (diagnostic only,
never parsed by the programs). -/
def calledProcessErrorMsg (code : Int) : String :=
  "Command returned non-zero exit status " ++ toString code

/-- Embeds `NCBIDatasetsClient._run_command` (client.py lines 74-100):
`subprocess.run(..., check=True)` raises on a non-zero exit and the method
re-raises it; a stdout that fails to parse as JSON re-raises the decode
error; a parsed dict with `status == 'error'` raises `ValueError`; anything
else is returned. -/
def run_command (w : ProcWorld) (command : List String) : Except String J :=
  let result := w.run command
  if result.exitCode != 0 then
    .error (calledProcessErrorMsg result.exitCode)
  else
    match w.jsonLoads result.stdout with
    | none => .error "JSONDecodeError"
    | some response =>
        match response with
        | .obj _ =>
            if response.getD "status" .null == .str "error" then
              .error ("NCBI Datasets API error: " ++
                ((response.getD "error" (.obj [])).getD "message" (.str "Unknown error")).pystr)
            else .ok response
        | _ => .ok response

/-- The optional arguments of `get_gene_metadata` (Python keyword arguments
with their defaults). -/
structure GeneMetadataArgs where
  report : String := "complete"
  limit : String := "all"
  input_file : Option String := none
  ortholog : List String := []
  as_json_lines : Bool := false
  api_key : Option String := none
  debug : Bool := false

/-- The argument list `get_gene_metadata` builds for the `datasets`
executable (client.py lines 397-414). -/
def gene_metadata_command (datasets_path gene_id : String)
    (a : GeneMetadataArgs) : List String :=
  [datasets_path, "summary", "gene", "gene-id", gene_id]
    ++ (if a.report != "complete" then ["--report", a.report] else [])
    ++ (if a.limit != "all" then ["--limit", a.limit] else [])
    ++ (match a.input_file with
        | some f => ["--inputfile", f]
        | none => [])
    ++ (a.ortholog.flatMap (fun tax => ["--ortholog", tax]))
    ++ (if a.as_json_lines then ["--as-json-lines"] else [])
    ++ (match a.api_key with
        | some k => ["--api-key", k]
        | none => [])
    ++ (if a.debug then ["--debug"] else [])

/-- Embeds `NCBIDatasetsClient.get_gene_metadata` (client.py lines 377-436): run the
built command; a non-zero exit (a `subprocess.SubprocessError`) is caught and
RETURNED as `{"error": "Subprocess error", "details": str(e)}`; stdout that
is not valid JSON is caught and RETURNED as
`{"error": "Failed to parse response", "details": str(e)}`; otherwise the
parsed response goes through `_parse_response(response, 'gene')`, whose
`ValueError` (if any) propagates out uncaught. -/
def get_gene_metadata (w : ProcWorld) (c : Client) (gene_id : String)
    (a : GeneMetadataArgs) : Except String J :=
  let command := gene_metadata_command c.datasets_path gene_id a
  let result := w.run command
  if result.exitCode != 0 then
    .ok (.obj [("error", .str "Subprocess error"),
               ("details", .str (calledProcessErrorMsg result.exitCode))])
  else
    match w.jsonLoads result.stdout with
    | none => .ok (.obj [("error", .str "Failed to parse response"),
                         ("details", .str "JSONDecodeError")])
    | some response => parse_response response "gene"

/-!
## Observation helpers and shared lemmas
-/

/-- Boolean view of whether an embedded call raised. -/
def isError {α : Type} : Except String α → Bool
  | .error _ => true
  | .ok _ => false

/-- Reads the `error.code` field of an optional response envelope. -/
def response_error_code (r : Option J) : Option J :=
  match r with
  | some resp => (resp.lookup "error").bind (fun e => e.lookup "code")
  | none => none

/-- Reads the `id` field of an optional response envelope. -/
def response_id (r : Option J) : Option J :=
  match r with
  | some resp => resp.lookup "id"
  | none => none

/-- Tells whether an optional response envelope carries a `result` field. -/
def response_has_result (r : Option J) : Bool :=
  match r with
  | some resp => resp.hasKey "result"
  | none => false

lemma hasKey_obj_iff (kvs : List (String × J)) (k : String) :
    (J.obj kvs).hasKey k = true ↔ ∃ kv ∈ kvs, kv.1 = k := by
  simp [J.hasKey, J.lookup, List.find?_isSome]

lemma keys_insert (kvs : List (String × J)) (k' : String) (v : J) :
    ∃ kvs', (J.obj kvs).insert k' v = J.obj kvs' ∧
      ∀ k, (∃ kv ∈ kvs', kv.1 = k) ↔ ((∃ kv ∈ kvs, kv.1 = k) ∨ k = k') := by
  by_cases h : kvs.any (fun kv => kv.1 == k') = true
  · refine ⟨kvs.map (fun kv => if kv.1 == k' then (k', v) else kv),
      by simp only [J.insert]; rw [if_pos h], fun k => ?_⟩
    simp only [List.any_eq_true, beq_iff_eq] at h
    obtain ⟨kv0, hmem0, hk0⟩ := h
    constructor
    · rintro ⟨kv, hmem, hfst⟩
      obtain ⟨y, hy, hfy⟩ := List.mem_map.1 hmem
      by_cases hc : y.1 = k'
      · rw [if_pos (by simp [hc])] at hfy
        rw [← hfy] at hfst
        exact Or.inr hfst.symm
      · rw [if_neg (by simp [hc])] at hfy
        rw [← hfy] at hfst
        exact Or.inl ⟨y, hy, hfst⟩
    · rintro (⟨kv, hmem, hfst⟩ | hkk)
      · by_cases hc : kv.1 = k'
        · exact ⟨(k', v), List.mem_map.2 ⟨kv, hmem, by simp [hc]⟩, by rw [← hfst, hc]⟩
        · exact ⟨kv, List.mem_map.2 ⟨kv, hmem, by simp [hc]⟩, hfst⟩
      · exact ⟨(k', v), List.mem_map.2 ⟨kv0, hmem0, by simp [hk0]⟩, hkk.symm⟩
  · refine ⟨kvs ++ [(k', v)], by simp only [J.insert]; rw [if_neg h], fun k => ?_⟩
    constructor
    · rintro ⟨kv, hmem, hfst⟩
      rcases List.mem_append.1 hmem with hl | hr
      · exact Or.inl ⟨kv, hl, hfst⟩
      · simp at hr
        subst hr
        exact Or.inr hfst.symm
    · rintro (⟨kv, hmem, hfst⟩ | hkk)
      · exact ⟨kv, List.mem_append.2 (Or.inl hmem), hfst⟩
      · exact ⟨(k', v), List.mem_append.2 (Or.inr (by simp)), hkk.symm⟩

lemma foldl_summary_keys (rec : J) (k : String) :
    ∀ (fields : List String) (kvs0 : List (String × J)),
      ((fields.foldl (summary_step rec) (J.obj kvs0)).hasKey k = true →
        (J.obj kvs0).hasKey k = true ∨ (k ∈ fields ∧ rec.hasKey k = true)) := by
  intro fields
  induction fields with
  | nil => intro kvs0 h; exact Or.inl h
  | cons f fs ih =>
      intro kvs0 h
      simp only [List.foldl_cons] at h
      rcases hlk : rec.lookup f with _ | v
      · simp only [summary_step, hlk] at h
        rcases ih kvs0 h with hl | ⟨hmem, hrk⟩
        · exact Or.inl hl
        · exact Or.inr ⟨List.mem_cons_of_mem _ hmem, hrk⟩
      · simp only [summary_step, hlk] at h
        obtain ⟨kvs', heq, hiff⟩ := keys_insert kvs0 f v
        rw [heq] at h
        rcases ih kvs' h with hl | ⟨hmem, hrk⟩
        · rcases (hasKey_obj_iff kvs' k).1 hl with hex
          rcases (hiff k).1 hex with hin | rfl
          · exact Or.inl ((hasKey_obj_iff kvs0 k).2 hin)
          · refine Or.inr ⟨List.mem_cons_self _ _, ?_⟩
            simp [J.hasKey, hlk]
        · exact Or.inr ⟨List.mem_cons_of_mem _ hmem, hrk⟩

lemma foldl_summary_preserve (rec : J) (k : String) :
    ∀ (fields : List String) (kvs0 : List (String × J)),
      (J.obj kvs0).hasKey k = true →
      (fields.foldl (summary_step rec) (J.obj kvs0)).hasKey k = true := by
  intro fields
  induction fields with
  | nil => intro kvs0 h; exact h
  | cons f fs ih =>
      intro kvs0 h
      simp only [List.foldl_cons]
      rcases hlk : rec.lookup f with _ | v
      · simp only [summary_step, hlk]; exact ih kvs0 h
      · simp only [summary_step, hlk]
        obtain ⟨kvs', heq, hiff⟩ := keys_insert kvs0 f v
        rw [heq]
        exact ih kvs' ((hasKey_obj_iff kvs' k).2
          ((hiff k).2 (Or.inl ((hasKey_obj_iff kvs0 k).1 h))))

lemma filterMap_uids (fields : List String) (kvs : List (String × J)) :
    kvs.filterMap (fun kv =>
        if kv.1 == "uids" then none else some (summary_entry kv.1 kv.2 fields))
      = (kvs.filter (fun kv => kv.1 != "uids")).map
          (fun kv => summary_entry kv.1 kv.2 fields) := by
  induction kvs with
  | nil => rfl
  | cons kv rest ih =>
      by_cases hc : kv.1 = "uids"
      · simpa [List.filterMap_cons, List.filter_cons, hc] using ih
      · simpa [List.filterMap_cons, List.filter_cons, hc] using ih

/-!
## Concrete inputs used by the claim theorems
-/

/-- A single notification: a request envelope with no `id` field. -/
def notification_request : J :=
  J.obj [("jsonrpc", J.str "2.0"), ("method", J.str "initialize")]

/-- The response the dispatcher produces for `notification_request`: a full
success envelope whose `id` is `null`. -/
def notification_response : J :=
  J.obj [("jsonrpc", J.str "2.0"), ("id", J.null),
    ("result", J.obj [("capabilities",
      J.obj [("tools", J.bool true), ("resources", J.bool true)])])]

/-!
## Claim theorems
-/

/-- C1. The claim states that a request envelope lacking an `id` is a
fire-and-forget notification: `_handle_single_request` returns nothing for
it and no envelope with `id` null is emitted. The code disagrees: this
theorem evaluates the dispatcher at the id-less request
`{"jsonrpc": "2.0", "method": "initialize"}` and shows a full response
envelope with `id` null is produced (`_handle_single_request` has no branch
returning `None`, so the `if response is not None` notification filter in
`handle_request` never fires). -/
theorem C1_notification_still_answered :
    handle_request trivProvider notification_request = some notification_response := by
  rfl

/-- C2. The claim states a batch of N requests with M notifications yields
exactly N−M responses, and an all-notification batch yields none. The code
disagrees: this theorem evaluates the dispatcher at the batch holding one
single notification (N = 1, M = 1) and shows a one-element response list is
returned where the claim requires no response at all. -/
theorem C2_all_notification_batch_still_answered :
    handle_request trivProvider (J.arr [notification_request])
      = some (J.arr [notification_response]) := by
  rfl

/-- C3, counterexample. The claim states an envelope whose `method` field
equals the empty string is rejected with the invalid-envelope code -32600.
Evaluating the dispatcher at `{"jsonrpc": "2.0", "id": 1, "method": ""}`
shows the envelope is instead routed to method lookup and answered with
code -32601, not -32600: the dispatcher only checks `"method" not in
request`, never emptiness. -/
theorem C3_empty_method_routed_to_lookup :
    response_error_code (handle_single_request trivProvider
        (J.obj [("jsonrpc", J.str "2.0"), ("id", J.num 1), ("method", J.str "")]))
      = some (J.num (-32601))
    ∧ ¬ response_error_code (handle_single_request trivProvider
        (J.obj [("jsonrpc", J.str "2.0"), ("id", J.num 1), ("method", J.str "")]))
      = some (J.num (-32600)) := by
  decide

/-- C3, amended: for every mapping envelope with `jsonrpc = "2.0"`, an
ABSENT `method` field is rejected with the invalid-envelope error -32600
before routing; a PRESENT method equal to the empty string passes the
presence check and is rejected by method lookup with -32601 instead. -/
theorem C3_method_missing_vs_empty (p : Provider) (fields : List (String × J))
    (hj : (J.obj fields).lookup "jsonrpc" = some (J.str "2.0")) :
    ((J.obj fields).lookup "method" = none →
      handle_single_request p (J.obj fields)
        = some (error_response J.null (-32600) "Invalid Request: method field missing"))
    ∧ ((J.obj fields).lookup "method" = some (J.str "") →
      response_error_code (handle_single_request p (J.obj fields))
        = some (J.num (-32601))) := by
  constructor
  · intro hm
    simp only [handle_single_request, J.hasKey, J.getD, hj, hm]
    simp
  · intro hm
    have hmain : handle_single_request p (J.obj fields)
        = some (error_response ((J.obj fields).getD "id" J.null) (-32601)
            ("Method " ++ J.pystr (J.str "") ++ " not found")) := by
      simp only [handle_single_request, J.hasKey, J.getD, hj, hm]
      simp [J.pystr]
    rw [hmain]
    rfl

/-- C3, witness for the amended theorem at the concrete envelope
`{"jsonrpc": "2.0"}` (no method) and `{"jsonrpc": "2.0", "method": ""}`. -/
theorem C3_method_missing_vs_empty_witness :
    handle_single_request trivProvider (J.obj [("jsonrpc", J.str "2.0")])
      = some (error_response J.null (-32600) "Invalid Request: method field missing")
    ∧ response_error_code (handle_single_request trivProvider
        (J.obj [("jsonrpc", J.str "2.0"), ("method", J.str "")]))
      = some (J.num (-32601)) :=
  ⟨(C3_method_missing_vs_empty trivProvider [("jsonrpc", J.str "2.0")] rfl).1 rfl,
   (C3_method_missing_vs_empty trivProvider
      [("jsonrpc", J.str "2.0"), ("method", J.str "")] rfl).2 rfl⟩

/-- C9. For every mapping envelope with `jsonrpc = "2.0"` whose `method`
field is present, non-empty and none of the four known methods
(`initialize`, `tools/list`, `tools/call`, `resources/list`), the dispatcher
returns an error envelope with code -32601, the request's `id` echoed
(`null` when absent), and no `result` field. -/
theorem C9_unknown_method_error (p : Provider) (fields : List (String × J)) (m : String)
    (hj : (J.obj fields).lookup "jsonrpc" = some (J.str "2.0"))
    (hm : (J.obj fields).lookup "method" = some (J.str m))
    (hne : m ≠ "")
    (h1 : m ≠ "initialize") (h2 : m ≠ "tools/list") (h3 : m ≠ "tools/call")
    (h4 : m ≠ "resources/list") :
    handle_single_request p (J.obj fields)
      = some (error_response ((J.obj fields).getD "id" J.null) (-32601)
          ("Method " ++ m ++ " not found"))
    ∧ response_error_code (handle_single_request p (J.obj fields)) = some (J.num (-32601))
    ∧ response_id (handle_single_request p (J.obj fields))
        = some ((J.obj fields).getD "id" J.null)
    ∧ response_has_result (handle_single_request p (J.obj fields)) = false := by
  have hmain : handle_single_request p (J.obj fields)
      = some (error_response ((J.obj fields).getD "id" J.null) (-32601)
          ("Method " ++ m ++ " not found")) := by
    simp only [handle_single_request, J.hasKey, J.getD, hj, hm]
    simp [h1, h2, h3, h4, J.pystr]
  refine ⟨hmain, ?_, ?_, ?_⟩ <;> rw [hmain] <;> rfl

/-- C9, witness at the concrete envelope
`{"jsonrpc": "2.0", "id": 7, "method": "foo"}`. -/
theorem C9_unknown_method_error_witness :
    handle_single_request trivProvider
        (J.obj [("jsonrpc", J.str "2.0"), ("id", J.num 7), ("method", J.str "foo")])
      = some (error_response (J.num 7) (-32601) "Method foo not found")
    ∧ response_has_result (handle_single_request trivProvider
        (J.obj [("jsonrpc", J.str "2.0"), ("id", J.num 7), ("method", J.str "foo")])) = false := by
  have h := C9_unknown_method_error trivProvider
    [("jsonrpc", J.str "2.0"), ("id", J.num 7), ("method", J.str "foo")] "foo"
    rfl rfl (by decide) (by decide) (by decide) (by decide) (by decide)
  exact ⟨h.1, h.2.2.2⟩

/-- C4. Gene-entity normalization on a payload with two reports each carrying
the query `["BRCA1"]`, where one report's gene has symbol `"BRCA2"` and the
other's has symbol `"BRCA1"` (equal to the query): the `"BRCA1"` report is
selected and its gene is extracted, for both orderings of the report list —
exact symbol match beats first-report fallback. -/
theorem C4_exact_symbol_match_wins (g1 g2 : J)
    (h1 : g1.getD "symbol" J.null = J.str "BRCA2")
    (h2 : g2.getD "symbol" J.null = J.str "BRCA1") :
    parse_response (J.obj [("reports", J.arr [
        J.obj [("query", J.arr [J.str "BRCA1"]), ("gene", g1)],
        J.obj [("query", J.arr [J.str "BRCA1"]), ("gene", g2)]])]) "gene"
      = extract_gene_info g2
    ∧ parse_response (J.obj [("reports", J.arr [
        J.obj [("query", J.arr [J.str "BRCA1"]), ("gene", g2)],
        J.obj [("query", J.arr [J.str "BRCA1"]), ("gene", g1)]])]) "gene"
      = extract_gene_info g2 := by
  have hne : (J.str "BRCA2" == J.str "BRCA1") = false := by decide
  simp only [J.getD, J.lookup] at h1 h2
  constructor <;>
    simp [parse_response, gene_tiebreak, exact_match_pred, synonym_match_pred,
      J.getD, J.hasKey, J.lookup, pyIndex0, pyIterList, truthy, h1, h2, hne,
      List.find?, Bind.bind, Except.bind]

/-- C4, witness at the concrete gene sub-objects
`{"symbol": "BRCA2"}` and `{"symbol": "BRCA1"}`. -/
theorem C4_exact_symbol_match_wins_witness :
    parse_response (J.obj [("reports", J.arr [
        J.obj [("query", J.arr [J.str "BRCA1"]),
               ("gene", J.obj [("symbol", J.str "BRCA2")])],
        J.obj [("query", J.arr [J.str "BRCA1"]),
               ("gene", J.obj [("symbol", J.str "BRCA1")])]])]) "gene"
      = extract_gene_info (J.obj [("symbol", J.str "BRCA1")])
    ∧ parse_response (J.obj [("reports", J.arr [
        J.obj [("query", J.arr [J.str "BRCA1"]),
               ("gene", J.obj [("symbol", J.str "BRCA1")])],
        J.obj [("query", J.arr [J.str "BRCA1"]),
               ("gene", J.obj [("symbol", J.str "BRCA2")])]])]) "gene"
      = extract_gene_info (J.obj [("symbol", J.str "BRCA1")]) :=
  C4_exact_symbol_match_wins
    (J.obj [("symbol", J.str "BRCA2")]) (J.obj [("symbol", J.str "BRCA1")]) rfl rfl

/-- C5, counterexample. The claim states that on every payload where no
report carries a `gene` sub-object the normalizer returns the placeholder
and never raises. Evaluating the gene branch at the gene-less payload
`{"reports": [{"query": []}]}` shows it raises instead: the query
extraction `response['reports'][0].get('query', [''])[0]` hits the empty
list and raises `IndexError` before any placeholder is reached. -/
theorem C5_empty_query_list_raises :
    parse_response (J.obj [("reports", J.arr [J.obj [("query", J.arr [])]])]) "gene"
      = .error "IndexError"
    ∧ isError (parse_response
        (J.obj [("reports", J.arr [J.obj [("query", J.arr [])]])]) "gene") = true := by
  constructor <;> rfl

/-- C5, amended: gene normalization returns the fully-populated placeholder
record (all fields `"Unknown"` / `"No ... available"`) whenever (a) the
payload's report list is absent, empty or otherwise falsy, or (b) the
reports are mappings none of which carries a `'gene'` key AND extracting
the query from the first report succeeds (its `'query'` value, when
present, is indexable at 0 — e.g. absent, defaulting to `['']`, or a
non-empty list); when that extraction fails the normalizer raises instead
(see the counterexample). -/
theorem C5_placeholder_when_no_gene :
    (∀ (fields : List (String × J)),
      (J.obj fields).getD "status" J.null ≠ J.str "error" →
      truthy ((J.obj fields).getD "reports" J.null) = false →
      parse_response (J.obj fields) "gene" = .ok unknown_gene)
    ∧ (∀ (fields : List (String × J)) (r0 : J) (rest : List J) (q : J),
      (J.obj fields).getD "status" J.null ≠ J.str "error" →
      (J.obj fields).lookup "reports" = some (J.arr (r0 :: rest)) →
      pyIndex0 (r0.getD "query" (J.arr [J.str ""])) = .ok q →
      (∀ r ∈ r0 :: rest, r.hasKey "gene" = false) →
      parse_response (J.obj fields) "gene" = .ok unknown_gene) := by
  constructor
  · intro fields hs hr
    simp only [parse_response]
    simp [hs, hr]
  · intro fields r0 rest q hs hr hq hg
    have hfind1 : (r0 :: rest).find? (exact_match_pred q) = none := by
      rw [List.find?_eq_none]
      intro r hrmem
      simp [exact_match_pred, hg r hrmem]
    have hfind2 : (r0 :: rest).find? (synonym_match_pred q) = none := by
      rw [List.find?_eq_none]
      intro r hrmem
      simp [synonym_match_pred, hg r hrmem]
    have h0 : r0.getD "gene" J.null = J.null := by
      have := hg r0 (by simp)
      simp [J.hasKey, Option.isSome_iff_exists] at this
      simp [J.getD, Option.getD_eq_iff, this]
    have hget : (J.obj fields).getD "reports" J.null = J.arr (r0 :: rest) := by
      simp [J.getD, hr]
    simp only [J.getD] at hs h0
    simp only [parse_response, hget]
    simp [hs, truthy, Bind.bind, Except.bind, pyIndex0, pyIterList, J.getD,
      gene_tiebreak, hfind1, hfind2, hq, h0] at hq ⊢
    simp [hq, gene_tiebreak, hfind1, hfind2, h0]

/-- C5, witness at the concrete payloads `{}` (falsy reports) and
`{"reports": [{}]}` (one mapping report without a `gene` key). -/
theorem C5_placeholder_when_no_gene_witness :
    parse_response (J.obj []) "gene" = .ok unknown_gene
    ∧ parse_response (J.obj [("reports", J.arr [J.obj []])]) "gene" = .ok unknown_gene :=
  ⟨C5_placeholder_when_no_gene.1 [] (by decide) (by decide),
   C5_placeholder_when_no_gene.2 [("reports", J.arr [J.obj []])]
     (J.obj []) [] (J.str "") (by decide) (by decide) rfl (by decide)⟩

/-- C6. Summary normalization: (i) on the concrete payload
`{"result": {"uids": ["1","2"], "1": {"title": "A"}, "2": {"title": "B"}}}`
with requested fields `["title"]` it returns exactly
`[{"id": "1", "title": "A"}, {"id": "2", "title": "B"}]`; (ii) on every
payload whose `result` value is a mapping it returns one record per
non-`"uids"` key, in insertion order — the sentinel `"uids"` never becomes
a record; (iii) every produced record carries the `"id"` field; and (iv) a
produced record carries no key besides `"id"` and the requested fields
present in the source sub-record. -/
theorem C6_normalize_summary_spec :
    (normalize_summary
        (J.obj [("result", J.obj [
          ("uids", J.arr [J.str "1", J.str "2"]),
          ("1", J.obj [("title", J.str "A")]),
          ("2", J.obj [("title", J.str "B")])])])
        ["title"]
      = .ok [J.obj [("id", J.str "1"), ("title", J.str "A")],
             J.obj [("id", J.str "2"), ("title", J.str "B")]])
    ∧ (∀ (raw : J) (kvs : List (String × J)) (fields : List String),
        raw.lookup "result" = some (J.obj kvs) →
        normalize_summary raw fields
          = .ok ((kvs.filter (fun kv => kv.1 != "uids")).map
              (fun kv => summary_entry kv.1 kv.2 fields)))
    ∧ (∀ (uid : String) (rec : J) (fields : List String),
        (summary_entry uid rec fields).hasKey "id" = true)
    ∧ (∀ (uid : String) (rec : J) (fields : List String) (k : String),
        (summary_entry uid rec fields).hasKey k = true →
        k = "id" ∨ (k ∈ fields ∧ rec.hasKey k = true)) := by
  refine ⟨by rfl, ?_, ?_, ?_⟩
  · intro raw kvs fields h
    rw [normalize_summary, h]
    show Except.ok _ = _
    rw [filterMap_uids]
  · intro uid rec fields
    apply foldl_summary_preserve
    simp [J.hasKey, J.lookup]
  · intro uid rec fields k h
    rcases foldl_summary_keys rec k fields _ h with hl | hr
    · rcases (hasKey_obj_iff _ k).1 hl with ⟨kv, hmem, hfst⟩
      simp only [List.mem_singleton] at hmem
      subst hmem
      exact Or.inl hfst.symm
    · exact Or.inr hr

/-- C6, witness: the general record-shape clauses applied at the concrete
payload `{"result": {"uids": [], "5": {"x": 3}}}` with fields `["x"]`. -/
theorem C6_normalize_summary_spec_witness :
    normalize_summary
        (J.obj [("result", J.obj [("uids", J.arr []), ("5", J.obj [("x", J.num 3)])])])
        ["x"]
      = .ok [J.obj [("id", J.str "5"), ("x", J.num 3)]]
    ∧ (summary_entry "5" (J.obj [("x", J.num 3)]) ["x"]).hasKey "id" = true := by
  constructor
  · rw [C6_normalize_summary_spec.2.1
      (J.obj [("result", J.obj [("uids", J.arr []), ("5", J.obj [("x", J.num 3)])])])
      [("uids", J.arr []), ("5", J.obj [("x", J.num 3)])] ["x"] rfl]
    rfl
  · exact C6_normalize_summary_spec.2.2.1 "5" (J.obj [("x", J.num 3)]) ["x"]

/-- C7, counterexample. The claim states that when the invoked executable
exits non-zero or emits invalid JSON, a process-backed metadata call fails
with a provider error that propagates to the caller. Evaluating
`get_gene_metadata` in a world whose process exits 1 with unparseable
output shows the call RETURNS normally (an `ok` value, `isError` false):
the failure is swallowed into the mapping
`{"error": "Subprocess error", "details": ...}` instead of propagating. -/
theorem C7_subprocess_failure_is_returned :
    get_gene_metadata ⟨fun _ => ⟨1, "", ""⟩, fun _ => none⟩
        ⟨"/home/user/datasets.exe", "/home/user/dataformat.exe"⟩ "70" {}
      = .ok (J.obj [("error", J.str "Subprocess error"),
                    ("details", J.str (calledProcessErrorMsg 1))])
    ∧ isError (get_gene_metadata ⟨fun _ => ⟨1, "", ""⟩, fun _ => none⟩
        ⟨"/home/user/datasets.exe", "/home/user/dataformat.exe"⟩ "70" {}) = false := by
  constructor <;> rfl

/-- C7, amended: on a non-zero exit, `get_gene_metadata` catches the
subprocess error and returns the in-band marker record
`{"error": "Subprocess error", "details": str(e)}`; on a zero exit whose
stdout is not valid JSON it returns
`{"error": "Failed to parse response", "details": str(e)}`; the failure is
thus signalled by an `"error"`-keyed return value, not by an exception —
only the (unused-by-these-calls) `_run_command` helper re-raises, shown by
the third clause. -/
theorem C7_failure_returned_as_marker (w : ProcWorld) (c : Client)
    (gene_id : String) (a : GeneMetadataArgs) :
    ((w.run (gene_metadata_command c.datasets_path gene_id a)).exitCode ≠ 0 →
      get_gene_metadata w c gene_id a
        = .ok (J.obj [("error", J.str "Subprocess error"),
            ("details", J.str (calledProcessErrorMsg
              (w.run (gene_metadata_command c.datasets_path gene_id a)).exitCode))]))
    ∧ ((w.run (gene_metadata_command c.datasets_path gene_id a)).exitCode = 0 →
      w.jsonLoads (w.run (gene_metadata_command c.datasets_path gene_id a)).stdout = none →
      get_gene_metadata w c gene_id a
        = .ok (J.obj [("error", J.str "Failed to parse response"),
            ("details", J.str "JSONDecodeError")]))
    ∧ ((w.run (gene_metadata_command c.datasets_path gene_id a)).exitCode ≠ 0 →
      run_command w (gene_metadata_command c.datasets_path gene_id a)
        = .error (calledProcessErrorMsg
            (w.run (gene_metadata_command c.datasets_path gene_id a)).exitCode)) := by
  refine ⟨?_, ?_, ?_⟩
  · intro h
    simp [get_gene_metadata, h]
  · intro h0 hp
    simp [get_gene_metadata, h0, hp]
  · intro h
    simp [run_command, h]

/-- C7, witness in the concrete world whose process exits 1. -/
theorem C7_failure_returned_as_marker_witness :
    get_gene_metadata ⟨fun _ => ⟨1, "", ""⟩, fun _ => none⟩
        ⟨"/home/user/datasets.exe", "/home/user/dataformat.exe"⟩ "70" {}
      = .ok (J.obj [("error", J.str "Subprocess error"),
                    ("details", J.str (calledProcessErrorMsg 1))])
    ∧ run_command ⟨fun _ => ⟨1, "", ""⟩, fun _ => none⟩
        (gene_metadata_command "/home/user/datasets.exe" "70" {})
      = .error (calledProcessErrorMsg 1) :=
  ⟨(C7_failure_returned_as_marker ⟨fun _ => ⟨1, "", ""⟩, fun _ => none⟩
      ⟨"/home/user/datasets.exe", "/home/user/dataformat.exe"⟩ "70" {}).1 (by decide),
   (C7_failure_returned_as_marker ⟨fun _ => ⟨1, "", ""⟩, fun _ => none⟩
      ⟨"/home/user/datasets.exe", "/home/user/dataformat.exe"⟩ "70" {}).2.2 (by decide)⟩

/-- C8. Constructing the process-backed `NCBIDatasetsClient` fails at
construction time (the embedded `__init__` returns a raised `ValueError`)
whenever the resolved datasets path does not exist or is not executable
(clause 1), whenever the resolved dataformat path does not exist or is not
executable (clause 2), and — for a datasets path ending in `datasets.exe`,
as the default one does — whenever the `--version` probe fails (clause 3);
no metadata call is involved, as the calls require the `Client` value the
failed construction never produces. -/
theorem C8_construction_fails_fast (fs : FS) (home_dir : String)
    (da df : Option String) :
    ((fs.pathExists (resolve_path da (home_dir ++ "/datasets.exe")) = false ∨
      fs.canExec (resolve_path da (home_dir ++ "/datasets.exe")) = false) →
      isError (client_init fs home_dir da df) = true)
    ∧ ((fs.pathExists (resolve_path df (home_dir ++ "/dataformat.exe")) = false ∨
      fs.canExec (resolve_path df (home_dir ++ "/dataformat.exe")) = false) →
      isError (client_init fs home_dir da df) = true)
    ∧ (endswith (resolve_path da (home_dir ++ "/datasets.exe")) "datasets.exe" = true →
      fs.versionProbeOk (resolve_path da (home_dir ++ "/datasets.exe")) = false →
      isError (client_init fs home_dir da df) = true) := by
  refine ⟨?_, ?_, ?_⟩
  · intro h
    have hv : verify_executable fs (resolve_path da (home_dir ++ "/datasets.exe")) = false := by
      rcases h with h | h <;> simp [verify_executable, h]
    simp [client_init, hv, isError]
  · intro h
    have hv : verify_executable fs (resolve_path df (home_dir ++ "/dataformat.exe")) = false := by
      rcases h with h | h <;> simp [verify_executable, h]
    by_cases hd : verify_executable fs (resolve_path da (home_dir ++ "/datasets.exe")) = true
    · simp [client_init, hd, hv, isError]
    · simp only [Bool.not_eq_true] at hd
      simp [client_init, hd, isError]
  · intro hend hprobe
    have hv : verify_executable fs (resolve_path da (home_dir ++ "/datasets.exe")) = false := by
      simp [verify_executable, hend, hprobe]
    simp [client_init, hv, isError]

/-- C8, witness: in a filesystem where nothing exists, default-path
construction under home `/home/user` fails, both through the missing-path
clause and through the version-probe clause. -/
theorem C8_construction_fails_fast_witness :
    isError (client_init ⟨fun _ => false, fun _ => false, fun _ => false⟩
        "/home/user" none none) = true
    ∧ isError (client_init ⟨fun _ => true, fun _ => true, fun _ => false⟩
        "/home/user" none none) = true :=
  ⟨(C8_construction_fails_fast ⟨fun _ => false, fun _ => false, fun _ => false⟩
      "/home/user" none none).1 (Or.inl rfl),
   (C8_construction_fails_fast ⟨fun _ => true, fun _ => true, fun _ => false⟩
      "/home/user" none none).2.2 (by decide) rfl⟩

/-- C10, counterexample. The claim states the exact-symbol and synonym
phases can never select a report whose gene symbol differs from the query
extracted from the payload. Evaluating the gene branch on a payload whose
first report has no `query` field (so the extracted query is `""`), whose
first report's gene is `{"symbol": "AAA", "synonyms": []}` and whose second
report's gene is `{"symbol": "GENE1", "synonyms": [""]}`, shows the SECOND
report is selected (output name `"GENE1"`, not the first-report fallback
`"AAA"`): the synonym phase matched `"" in synonyms` and selected a report
whose symbol `"GENE1"` differs from the extracted query `""`. -/
theorem C10_synonym_phase_selects_other_symbol :
    parse_response
        (J.obj [("reports", J.arr [
          J.obj [("gene", J.obj [("symbol", J.str "AAA"), ("synonyms", J.arr [])])],
          J.obj [("gene", J.obj [("symbol", J.str "GENE1"),
                                 ("synonyms", J.arr [J.str ""])])]])]) "gene"
      = .ok (J.obj [("name", J.str "GENE1"),
                    ("description", J.str "No description available"),
                    ("chromosome", J.str "Unknown"),
                    ("map_location", J.str "Unknown"),
                    ("type", J.str "Unknown"),
                    ("summary", J.str "No summary available")])
    ∧ J.str "GENE1" ≠ J.str "" := by
  constructor
  · rfl
  · decide

/-- C10, amended: (a) the query string of the tie-break is not a parameter
but is extracted from the payload as element 0 of the first report's
`query` value (defaulted to `['']`), so a first report without a `query`
key makes the whole gene branch equal to the tie-break run against the
empty string; (b) the exact-symbol phase only ever selects a report whose
gene symbol equals that extracted query; (c) the synonym phase only ever
selects a report whose gene's synonym list contains the extracted query —
that report's own symbol may differ from it. -/
theorem C10_query_extracted_from_payload :
    (∀ (fields : List (String × J)) (r0 : J) (rest : List J),
      (J.obj fields).getD "status" J.null ≠ J.str "error" →
      (J.obj fields).lookup "reports" = some (J.arr (r0 :: rest)) →
      r0.lookup "query" = none →
      parse_response (J.obj fields) "gene" = gene_tiebreak (J.str "") (r0 :: rest))
    ∧ (∀ (query : J) (rs : List J) (report : J),
      rs.find? (exact_match_pred query) = some report →
      (report.getD "gene" J.null).getD "symbol" J.null = query)
    ∧ (∀ (query : J) (rs : List J) (report : J),
      rs.find? (synonym_match_pred query) = some report →
      pyMem query ((report.getD "gene" J.null).getD "synonyms" (J.arr [])) = true) := by
  refine ⟨?_, ?_, ?_⟩
  · intro fields r0 rest hs hr hq
    have hget : (J.obj fields).getD "reports" J.null = J.arr (r0 :: rest) := by
      simp [J.getD, hr]
    simp only [J.getD] at hs
    simp only [parse_response, hget]
    simp [hs, truthy, Bind.bind, Except.bind, pyIndex0, pyIterList, J.getD, hq]
  · intro query rs report h
    have := List.find?_some h
    simp [exact_match_pred] at this
    exact this.2
  · intro query rs report h
    have := List.find?_some h
    simp [synonym_match_pred] at this
    exact this.2

/-- C10, witness: clause (a) at the payload `{"reports": [{}]}`, clause (b)
at a singleton report list whose gene symbol equals the query `"q"`, and
clause (c) at a singleton report list whose gene synonyms contain `"q"`. -/
theorem C10_query_extracted_from_payload_witness :
    parse_response (J.obj [("reports", J.arr [J.obj []])]) "gene"
      = gene_tiebreak (J.str "") [J.obj []]
    ∧ ((J.obj [("gene", J.obj [("symbol", J.str "q")])]).getD "gene" J.null).getD
        "symbol" J.null = J.str "q"
    ∧ pyMem (J.str "q")
        (((J.obj [("gene", J.obj [("synonyms", J.arr [J.str "q"])])]).getD "gene"
          J.null).getD "synonyms" (J.arr [])) = true :=
  ⟨(C10_query_extracted_from_payload).1 [("reports", J.arr [J.obj []])]
      (J.obj []) [] (by decide) (by decide) (by decide),
   (C10_query_extracted_from_payload).2.1 (J.str "q")
      [J.obj [("gene", J.obj [("symbol", J.str "q")])]]
      (J.obj [("gene", J.obj [("symbol", J.str "q")])]) (by decide),
   (C10_query_extracted_from_payload).2.2 (J.str "q")
      [J.obj [("gene", J.obj [("synonyms", J.arr [J.str "q"])])]]
      (J.obj [("gene", J.obj [("synonyms", J.arr [J.str "q"])])]) (by decide)⟩
